import Mathlib

/-!
Verification development for `update_cloudwatch_alarms.py`, a one-shot
utility that bulk-adds or removes an SNS topic from the action lists of a
set of CloudWatch alarms.

The script is embedded shallowly:

* Remote calls (`describe_alarms`, `put_metric_alarm`) are passed in as
  explicit oracle functions; a call that raises `ClientError` is an oracle
  returning `Except.error`.
* Python `set` of strings is modelled as a duplicate-free list
  (`List.dedup` for construction, append for `add`, `filter` for
  `remove`).  CPython's set iteration order is hash-dependent and
  unspecified, so this is only one deterministic concretization;
  theorem conclusions about lists that round-trip through a set are
  therefore stated order-robustly (duplicate-freedom, membership,
  permutation), never as exact list equality.
* Python `dict` (`alarms_details`) is modelled as an association list with
  overwrite-on-insert semantics.
* Numeric pass-through values (`Period`, `Threshold`, ...) are only ever
  copied, never computed with, so they are modelled as `Int`.
* Message strings keep the source's Portuguese text (quotes around
  interpolated names elided).
-/

/-- Lexicographic comparison of character lists by code point, mirroring
Python string comparison. -/
def charListLe : List Char → List Char → Bool
  | [], _ => true
  | _ :: _, [] => false
  | x :: xs, y :: ys => if x < y then true else if y < x then false else charListLe xs ys

/-- Python `<=` on strings: lexicographic by code point. -/
def strLe (a b : String) : Bool := charListLe a.data b.data

/-- Python `sorted` on a list of strings. -/
def sortedStr (l : List String) : List String :=
  List.insertionSort (fun a b => strLe a b = true) l

/-- Python `set(list)` for strings: the distinct elements, as a
duplicate-free list.  The order (first occurrences) is an artifact of
the list model — CPython iterates sets in unspecified hash order — so
no theorem concludes an exact list ordering from it. -/
def pySet (l : List String) : List String := l.dedup

/-- Python `set.add`: no-op when the element is already present.  The
append position of the new element is an artifact of the list model;
no theorem concludes an exact list ordering from it. -/
def pySetAdd (s : List String) (x : String) : List String :=
  if x ∈ s then s else s ++ [x]

/-- Python `set.remove` (the element is present in every call site). -/
def pySetRemove (s : List String) (x : String) : List String :=
  s.filter (fun y => y ≠ x)

/-- ASCII lower-casing of one character (the marker substrings checked by
the script only differ from their lower-case forms in ASCII letters). -/
def lowerChar (c : Char) : Char :=
  if 65 ≤ c.toNat ∧ c.toNat ≤ 90 then Char.ofNat (c.toNat + 32) else c

/-- Python `str.lower`, restricted to ASCII letters. -/
def pyLower (s : String) : String := String.mk (s.data.map lowerChar)

/-- Auxiliary: does `l` start with `sub`? -/
def subAt : List Char → List Char → Bool
  | [], _ => true
  | _ :: _, [] => false
  | x :: xs, y :: ys => x == y && subAt xs ys

/-- Python `sub in s` on character lists. -/
def containsSub : List Char → List Char → Bool
  | sub, [] => sub == []
  | sub, y :: ys => subAt sub (y :: ys) || containsSub sub ys

/-- Python `'nenhuma ação' in change.lower()`, the no-op marker test of
`process_alarms`. -/
def hasNenhumaAcao (change : String) : Bool :=
  containsSub ("nenhuma ação".data) ((pyLower change).data)

/-- An alarm as returned by the directory (`describe_alarms`): the three
action lists plus the pass-through configuration fields read by the
script.  Optional dictionary keys are modelled with `Option`. -/
structure Alarm where
  alarmName : String
  alarmArn : String
  okActions : List String
  alarmActions : List String
  insufficientDataActions : List String
  metricName : String
  nameSpace : String
  period : Int
  evaluationPeriods : Int
  threshold : Int
  comparisonOperator : String
  statistic : Option String
  extendedStatistic : Option String
  unit : Option String
  alarmDescription : Option String
  treatMissingData : Option String
  dimensions : Option (List String)
  datapointsToAlarm : Option Int
  thresholdMetricId : Option String
  metrics : Option (List String)
  tags : Option (List String)
  actionsEnabled : Option Bool
deriving DecidableEq

/-- The trimmed per-alarm record built by `get_alarm_details`
(lines 112-118 of the source). -/
structure AlarmSummary where
  alarmName : String
  alarmArn : String
  okActions : List String
  alarmActions : List String
  insufficientDataActions : List String
deriving DecidableEq

/-- The `put_metric_alarm` keyword dictionary built at lines 219-256. -/
structure PutParams where
  alarmName : String
  metricName : String
  nameSpace : String
  period : Int
  evaluationPeriods : Int
  threshold : Int
  comparisonOperator : String
  okActions : List String
  alarmActions : List String
  insufficientDataActions : List String
  statistic : Option String
  extendedStatistic : Option String
  unit : Option String
  alarmDescription : Option String
  treatMissingData : Option String
  dimensions : Option (List String)
  datapointsToAlarm : Option Int
  thresholdMetricId : Option String
  metrics : Option (List String)
  tags : Option (List String)
  actionsEnabled : Option Bool
deriving DecidableEq

/-- The `result` dictionary of `update_alarm_sns_topic`. -/
structure UpdateResult where
  success : Bool
  changes : List String
  error : Option String
deriving DecidableEq

/-- Outcome of one `update_alarm_sns_topic` call: the returned result
dictionary plus the `put_metric_alarm` invocation it attempted, if any. -/
structure UpdateOutcome where
  result : UpdateResult
  putCall : Option PutParams
deriving DecidableEq

/-- The `stats` dictionary of `process_alarms` (the dry-run branch has no
`no_changes` key in the source; it is modelled as the value 0). -/
structure Stats where
  total : Nat
  found : Nat
  notFound : Nat
  processed : Nat
  success : Nat
  failed : Nat
  noChanges : Nat
deriving DecidableEq

/-- The two accepted JSON shapes of the alarm-list file, plus any other
shape. -/
inductive AlarmsJson where
  | arr (items : List String)
  | obj (alarms : List String)
  | other
deriving DecidableEq

/-- `CloudWatchAlarmUpdater.VALID_STATES`. -/
def VALID_STATES : List String := ["OK", "IN_ALARM", "INSUFFICIENT_DATA"]

/-- `load_alarm_list` (lines 58-73), after JSON parsing: dispatch on the
document shape, then `sorted(list(set(alarms)))`.  The file-not-found and
JSON-decode fatal exits happen before the modelled code runs. -/
def load_alarm_list (doc : AlarmsJson) : Except String (List String) :=
  match doc with
  | .arr items => .ok (sortedStr (pySet items))
  | .obj alarms => .ok (sortedStr (pySet alarms))
  | .other => .error "Formato JSON inválido. Esperado lista ou objeto com chave alarms"

/-- Batch size of `get_alarm_details` (line 101). -/
def batch_size : Nat := 100

/-- Python `range(0, n, batch_size)`: the start index of each batch.  The
range has exactly `ceil(n / batch_size)` elements. -/
def batchStarts (n : Nat) : List Nat :=
  (List.range ((n + batch_size - 1) / batch_size)).map (fun k => k * batch_size)

/-- The consecutive slices `alarm_names[i:i + batch_size]` taken by the
loop at line 102. -/
def batches (alarm_names : List String) : List (List String) :=
  (batchStarts alarm_names.length).map
    (fun i => (alarm_names.drop i).take batch_size)

/-- One `describe_alarms(AlarmNames=batch)` call against the directory
oracle `dir`: the alarms that exist among the requested names.  (The
fatal `ClientError` exit at line 124-126 is outside the modelled
success path: `dir` is a total oracle.) -/
def describeBatch (dir : String → Option Alarm) (batch : List String) : List Alarm :=
  batch.filterMap dir

/-- The trimmed record stored into `alarms_details` for one returned
alarm (lines 112-118). -/
def summarize (a : Alarm) : AlarmSummary :=
  { alarmName := a.alarmName
    alarmArn := a.alarmArn
    okActions := a.okActions
    alarmActions := a.alarmActions
    insufficientDataActions := a.insufficientDataActions }

/-- Python `dict` assignment `d[k] = v`: overwrite in place if the key
exists, else append. -/
def dictInsert (d : List (String × AlarmSummary)) (k : String) (v : AlarmSummary) :
    List (String × AlarmSummary) :=
  if k ∈ d.map (fun p => p.1) then
    d.map (fun p => if p.1 = k then (k, v) else p)
  else d ++ [(k, v)]

/-- The body of the batch loop of `get_alarm_details` (lines 105-122):
store a summary per returned alarm into the details dictionary, append
the batch names missing from the response to the not-found list. -/
def fetchBatchStep (dir : String → Option Alarm)
    (acc : List (String × AlarmSummary) × List String) (batch : List String) :
    List (String × AlarmSummary) × List String :=
  let response := describeBatch dir batch
  let found_names := response.map (fun a => a.alarmName)
  (response.foldl (fun d a => dictInsert d a.alarmName (summarize a)) acc.1,
    acc.2 ++ batch.filter (fun n => n ∉ found_names))

/-- `get_alarm_details` (lines 97-128): fold `fetchBatchStep` over the
batches. -/
def get_alarm_details (dir : String → Option Alarm) (alarm_names : List String) :
    List (String × AlarmSummary) × List String :=
  (batches alarm_names).foldl (fetchBatchStep dir) ([], [])

/-- One state's four-way `if/elif` block of `update_alarm_sns_topic`
(e.g. lines 170-182 for OK): returns the new action set, the `updated`
contribution and the appended change descriptions. -/
def stateStep (stateName action topic_arn : String) (s : List String) :
    List String × Bool × List String :=
  if action = "add" ∧ topic_arn ∉ s then
    (pySetAdd s topic_arn, true, [stateName ++ ": Adicionado tópico SNS"])
  else if action = "remove" ∧ topic_arn ∈ s then
    (pySetRemove s topic_arn, true, [stateName ++ ": Removido tópico SNS"])
  else if action = "add" ∧ topic_arn ∈ s then
    (s, false, [stateName ++ ": Tópico já presente (nenhuma ação)"])
  else if action = "remove" ∧ topic_arn ∉ s then
    (s, false, [stateName ++ ": Tópico não presente (nenhuma ação)"])
  else (s, false, [])

/-- The `if state in states` guard around one state's block. -/
def guardState (stateName : String) (states : List String) (action topic_arn : String)
    (s : List String) : List String × Bool × List String :=
  if stateName ∈ states then stateStep stateName action topic_arn s
  else (s, false, [])

/-- The `put_params` dictionary construction (lines 219-256): required
fields always copied, optional fields copied when the key is present —
except that `Dimensions`, `Metrics` and `Tags` additionally require a
truthy (non-empty) value, and `TreatMissingData` falls back to
`"missing"` when absent. -/
def buildPutParams (alarm_name : String) (alarm : Alarm)
    (okActions alarmActions insufficientDataActions : List String) : PutParams :=
  { alarmName := alarm_name
    metricName := alarm.metricName
    nameSpace := alarm.nameSpace
    period := alarm.period
    evaluationPeriods := alarm.evaluationPeriods
    threshold := alarm.threshold
    comparisonOperator := alarm.comparisonOperator
    okActions := okActions
    alarmActions := alarmActions
    insufficientDataActions := insufficientDataActions
    statistic := alarm.statistic
    extendedStatistic := alarm.extendedStatistic
    unit := alarm.unit
    alarmDescription := alarm.alarmDescription
    treatMissingData :=
      match alarm.treatMissingData with
      | some v => some v
      | none => some "missing"
    dimensions :=
      match alarm.dimensions with
      | some ds => if ds = [] then none else some ds
      | none => none
    datapointsToAlarm := alarm.datapointsToAlarm
    thresholdMetricId := alarm.thresholdMetricId
    metrics :=
      match alarm.metrics with
      | some ms => if ms = [] then none else some ms
      | none => none
    tags :=
      match alarm.tags with
      | some ts => if ts = [] then none else some ts
      | none => none
    actionsEnabled := alarm.actionsEnabled }

/-- `update_alarm_sns_topic` (lines 130-268).  `fetch` is the single-name
`describe_alarms` call of line 155 (`Except.error` models a raised
`ClientError`); `putRes` is the `put_metric_alarm` oracle.  The generic
`except Exception` branch at line 266 behaves like the `ClientError`
branch up to the message prefix and is modelled together with it. -/
def update_alarm_sns_topic (dry_run : Bool) (alarm_name topic_arn : String)
    (states : List String) (action : String)
    (fetch : Except String (List Alarm))
    (putRes : PutParams → Except String Unit) : UpdateOutcome :=
  match fetch with
  | .error e =>
    { result := { success := false, changes := [], error := some ("Erro ao atualizar alarme: " ++ e) }
      putCall := none }
  | .ok metricAlarms =>
    match metricAlarms with
    | [] =>
      { result := { success := false, changes := [],
                    error := some ("Alarme " ++ alarm_name ++ " não encontrado") }
        putCall := none }
    | alarm :: _ =>
      let okStep := guardState "OK" states action topic_arn (pySet alarm.okActions)
      let alarmStep := guardState "IN_ALARM" states action topic_arn (pySet alarm.alarmActions)
      let insStep :=
        guardState "INSUFFICIENT_DATA" states action topic_arn (pySet alarm.insufficientDataActions)
      let updated := okStep.2.1 || alarmStep.2.1 || insStep.2.1
      let changes := okStep.2.2 ++ alarmStep.2.2 ++ insStep.2.2
      if updated = false ∧ changes = [] then
        { result := { success := false, changes := changes, error := some "Nenhuma alteração necessária" }
          putCall := none }
      else if dry_run = false ∧ updated = true then
        let put_params := buildPutParams alarm_name alarm okStep.1 alarmStep.1 insStep.1
        match putRes put_params with
        | .ok _ =>
          { result := { success := true, changes := changes, error := none }
            putCall := some put_params }
        | .error e =>
          { result := { success := false, changes := changes,
                        error := some ("Erro ao atualizar alarme: " ++ e) }
            putCall := some put_params }
      else
        { result := { success := true, changes := changes, error := none }
          putCall := none }

/-- The per-alarm stats update of the live loop (lines 390-414),
excluding the unconditional `processed` increment. -/
def processOne (stats : Stats) (outcome : UpdateOutcome) : Stats :=
  if outcome.result.error ≠ none then { stats with failed := stats.failed + 1 }
  else if outcome.result.success then
    if outcome.result.changes ≠ [] then
      if outcome.result.changes.any (fun c => !(hasNenhumaAcao c)) then
        { stats with success := stats.success + 1 }
      else { stats with noChanges := stats.noChanges + 1 }
    else { stats with noChanges := stats.noChanges + 1 }
  else { stats with failed := stats.failed + 1 }

/-- One iteration of the live processing loop (lines 385-417): call the
mutator, fold its outcome into the stats, count it as processed, and
record the persist call it attempted, if any. -/
def processLoopStep (dry_run : Bool) (topic_arn : String) (states : List String)
    (action : String) (refetch : String → Except String (List Alarm))
    (putRes : PutParams → Except String Unit)
    (acc : Stats × List PutParams) (alarm_name : String) : Stats × List PutParams :=
  let outcome := update_alarm_sns_topic dry_run alarm_name topic_arn states action
    (refetch alarm_name) putRes
  let stats1 := processOne acc.1 outcome
  ({ stats1 with processed := stats1.processed + 1 }, acc.2 ++ outcome.putCall.toList)

/-- `process_alarms` (lines 270-433).  Fatal `sys.exit` paths are
`Except.error`; the returned pair carries the final stats and every
persist call attempted during the run.  `dir` backs the batched
directory fetch, `refetch` the per-alarm re-fetch, `putRes` the persist
call. -/
def process_alarms (dry_run : Bool) (doc : AlarmsJson) (topic_arn : String)
    (states : List String) (action : String)
    (dir : String → Option Alarm)
    (refetch : String → Except String (List Alarm))
    (putRes : PutParams → Except String Unit) :
    Except String (Stats × List PutParams) :=
  if states.filter (fun s => s ∉ VALID_STATES) ≠ [] then
    .error "Estados inválidos"
  else
    match load_alarm_list doc with
    | .error e => .error e
    | .ok alarm_names =>
      if alarm_names = [] then .error "Lista de alarmes está vazia"
      else
        let fetched := get_alarm_details dir alarm_names
        let alarms_details := fetched.1
        let not_found_alarms := fetched.2
        if alarms_details = [] then .error "Nenhum alarme válido encontrado"
        else if dry_run then
          .ok ({ total := alarm_names.length, found := alarms_details.length,
                 notFound := not_found_alarms.length, processed := 0, success := 0,
                 failed := 0, noChanges := 0 }, [])
        else
          let initStats : Stats :=
            { total := alarm_names.length, found := alarms_details.length,
              notFound := not_found_alarms.length, processed := 0, success := 0,
              failed := 0, noChanges := 0 }
          .ok ((sortedStr (alarms_details.map (fun p => p.1))).foldl
            (processLoopStep dry_run topic_arn states action refetch putRes)
            (initStats, []))

/-- Selects the action list of an alarm that belongs to a state name
(OK / IN_ALARM / INSUFFICIENT_DATA). -/
def stListOf (st : String) (a : Alarm) : List String :=
  if st = "OK" then a.okActions
  else if st = "IN_ALARM" then a.alarmActions
  else a.insufficientDataActions

/-- Selects the action list of a persist payload that belongs to a state
name. -/
def ppListOf (st : String) (p : PutParams) : List String :=
  if st = "OK" then p.okActions
  else if st = "IN_ALARM" then p.alarmActions
  else p.insufficientDataActions

/-- Modelled from the spec: the external `putAlarm` collaborator replaces
the stored alarm definition wholesale and is all-or-nothing (spec
sections 4.3 and 6); the store is untouched by a failed or absent
persist.  The action list a later re-fetch of the same state observes
after an outcome. -/
def storedListAfter (st : String) (a : Alarm) (o : UpdateOutcome) : List String :=
  if o.result.success = true then
    match o.putCall with
    | some p => ppListOf st p
    | none => stListOf st a
  else stListOf st a

/-- A baseline concrete alarm used by the concrete evaluations below. -/
def sampleAlarm : Alarm :=
  { alarmName := "alarm-1"
    alarmArn := "arn:aws:cloudwatch:us-east-1:123:alarm:alarm-1"
    okActions := []
    alarmActions := []
    insufficientDataActions := []
    metricName := "CPUUtilization"
    nameSpace := "AWS/EC2"
    period := 300
    evaluationPeriods := 1
    threshold := 80
    comparisonOperator := "GreaterThanThreshold"
    statistic := some "Average"
    extendedStatistic := none
    unit := none
    alarmDescription := none
    treatMissingData := none
    dimensions := none
    datapointsToAlarm := none
    thresholdMetricId := none
    metrics := none
    tags := none
    actionsEnabled := some true }

/-- An always-succeeding persist oracle. -/
def putOk : PutParams → Except String Unit := fun _ => .ok ()

/-- An always-failing persist oracle. -/
def putFail : PutParams → Except String Unit := fun _ => .error "AccessDenied"

/-- Alarm whose OK action set iterates as `["b"]`; adding `"a"` makes the
converted list `["b", "a"]`, which is not sorted. -/
def alarmOkB : Alarm := { sampleAlarm with okActions := ["b"] }

/-- Alarm with a duplicated entry in its OK action list. -/
def alarmOkDup : Alarm := { sampleAlarm with okActions := ["a", "a"] }

/-- Alarm with a duplicated entry in its INSUFFICIENT_DATA action list. -/
def alarmInsDup : Alarm := { sampleAlarm with insufficientDataActions := ["a", "a"] }

/-- Alarm carrying a present-but-empty `Dimensions` entry. -/
def alarmEmptyDims : Alarm := { sampleAlarm with dimensions := some [] }

/-- Alarm with one OK action, used by round-trip witnesses. -/
def alarmOkX : Alarm := { sampleAlarm with okActions := ["x"] }

/-- The alarm stored after adding topic `"t"` to `alarmOkX`'s OK actions. -/
def alarmOkXT : Alarm := { sampleAlarm with okActions := ["x", "t"] }

/-- A second named alarm for multi-alarm runs. -/
def alarmTwo : Alarm := { sampleAlarm with alarmName := "alarm-2" }

/-- A directory containing only `alarm-1`. -/
def dirOne : String → Option Alarm :=
  fun n => if n = "alarm-1" then some sampleAlarm else none

/-- A directory containing `alarm-1` and `alarm-2`. -/
def dirTwo : String → Option Alarm :=
  fun n => if n = "alarm-1" then some sampleAlarm
    else if n = "alarm-2" then some alarmTwo else none

/-- A per-alarm re-fetch oracle that always succeeds with `sampleAlarm`. -/
def refetchOne : String → Except String (List Alarm) := fun _ => .ok [sampleAlarm]

/-- A per-alarm re-fetch oracle that always raises. -/
def refetchErr : String → Except String (List Alarm) := fun _ => .error "boom"

/-! ### Helper lemmas about the Python-set model -/

theorem pySet_nodup (l : List String) : (pySet l).Nodup := List.nodup_dedup l

theorem mem_pySet {x : String} {l : List String} : x ∈ pySet l ↔ x ∈ l := List.mem_dedup

theorem pySet_eq_self {l : List String} (h : l.Nodup) : pySet l = l :=
  List.dedup_eq_self.mpr h

theorem pySetRemove_of_not_mem {s : List String} {t : String} (h : t ∉ s) :
    pySetRemove s t = s := by
  unfold pySetRemove
  refine List.filter_eq_self.mpr ?_
  intro x hx
  have : x ≠ t := fun he => h (he ▸ hx)
  simp [this]

theorem pySetRemove_append_singleton {s : List String} {t : String} (h : t ∉ s) :
    pySetRemove (s ++ [t]) t = s := by
  unfold pySetRemove
  rw [List.filter_append]
  have h1 : List.filter (fun y => decide (y ≠ t)) s = s := by
    refine List.filter_eq_self.mpr ?_
    intro x hx
    have : x ≠ t := fun he => h (he ▸ hx)
    simp [this]
  have h2 : List.filter (fun y => decide (y ≠ t)) [t] = [] := by simp
  rw [h1, h2, List.append_nil]

theorem nodup_append_singleton {s : List String} {t : String} (hs : s.Nodup) (h : t ∉ s) :
    (s ++ [t]).Nodup := by
  simp [List.nodup_append, hs, h]

/-! ### Helper lemmas about the per-state mutation step -/

theorem stateStep_add_absent (st t : String) (s : List String) (h : t ∉ s) :
    stateStep st "add" t s = (s ++ [t], true, [st ++ ": Adicionado tópico SNS"]) := by
  simp [stateStep, pySetAdd, h]

theorem stateStep_add_present (st t : String) (s : List String) (h : t ∈ s) :
    stateStep st "add" t s = (s, false, [st ++ ": Tópico já presente (nenhuma ação)"]) := by
  simp [stateStep, h]

theorem stateStep_remove_present (st t : String) (s : List String) (h : t ∈ s) :
    stateStep st "remove" t s
      = (pySetRemove s t, true, [st ++ ": Removido tópico SNS"]) := by
  simp [stateStep, h]

theorem stateStep_remove_absent (st t : String) (s : List String) (h : t ∉ s) :
    stateStep st "remove" t s
      = (s, false, [st ++ ": Tópico não presente (nenhuma ação)"]) := by
  simp [stateStep, h]

theorem guardState_skip (st : String) (states : List String) (action t : String)
    (s : List String) (h : st ∉ states) :
    guardState st states action t s = (s, false, []) := by
  simp [guardState, h]

theorem guardState_hit (st : String) (states : List String) (action t : String)
    (s : List String) (h : st ∈ states) :
    guardState st states action t s = stateStep st action t s := by
  simp [guardState, h]

/-- Membership and duplicate-freedom of the action set produced by one
state's guarded block, for a duplicate-free input set. -/
theorem guardState_mem (st : String) (states : List String) (action t : String)
    (s : List String) (hs : s.Nodup) :
    (guardState st states action t s).1.Nodup ∧
    (∀ x, x ∈ (guardState st states action t s).1 ↔
      (if st ∈ states ∧ action = "add" then x ∈ s ∨ x = t
       else if st ∈ states ∧ action = "remove" then x ∈ s ∧ x ≠ t
       else x ∈ s)) := by
  by_cases hin : st ∈ states
  · by_cases ha : action = "add"
    · by_cases hts : t ∈ s
      · rw [guardState_hit _ _ _ _ _ hin, ha, stateStep_add_present _ _ _ hts]
        refine ⟨hs, ?_⟩
        intro x
        simp only [hin, ha, true_and, if_pos]
        constructor
        · exact fun hx => Or.inl hx
        · rintro (hx | rfl)
          · exact hx
          · exact hts
      · rw [guardState_hit _ _ _ _ _ hin, ha, stateStep_add_absent _ _ _ hts]
        refine ⟨nodup_append_singleton hs hts, ?_⟩
        intro x
        simp [hin, ha]
    · by_cases hr : action = "remove"
      · by_cases hts : t ∈ s
        · rw [guardState_hit _ _ _ _ _ hin, hr, stateStep_remove_present _ _ _ hts]
          constructor
          · exact List.Nodup.filter _ hs
          · intro x
            simp [hin, hr, ha, pySetRemove, List.mem_filter]
        · rw [guardState_hit _ _ _ _ _ hin, hr, stateStep_remove_absent _ _ _ hts]
          refine ⟨hs, ?_⟩
          intro x
          simp only [hin, hr, ha, false_and, if_neg, true_and, if_pos, not_false_iff]
          constructor
          · exact fun hx => ⟨hx, fun he => hts (he ▸ hx)⟩
          · exact fun hx => hx.1
      · have hnone : guardState st states action t s = (s, false, []) := by
          rw [guardState_hit _ _ _ _ _ hin]
          simp [stateStep, ha, hr]
        rw [hnone]
        refine ⟨hs, ?_⟩
        intro x
        simp [ha, hr]
  · rw [guardState_skip _ _ _ _ _ hin]
    refine ⟨hs, ?_⟩
    intro x
    simp [hin]

/-- Inversion: every attempted persist call is the payload built from the
freshly fetched alarm and the three guarded action sets. -/
theorem putCall_inv (dry_run : Bool) (n t : String) (states : List String) (action : String)
    (fetch : Except String (List Alarm)) (putRes : PutParams → Except String Unit)
    (p : PutParams)
    (hp : (update_alarm_sns_topic dry_run n t states action fetch putRes).putCall = some p) :
    ∃ a rest, fetch = .ok (a :: rest) ∧
      p = buildPutParams n a
        (guardState "OK" states action t (pySet a.okActions)).1
        (guardState "IN_ALARM" states action t (pySet a.alarmActions)).1
        (guardState "INSUFFICIENT_DATA" states action t (pySet a.insufficientDataActions)).1 := by
  unfold update_alarm_sns_topic at hp
  cases fetch with
  | error e => simp at hp
  | ok ms =>
    cases ms with
    | nil => simp at hp
    | cons a rest =>
      refine ⟨a, rest, rfl, ?_⟩
      simp only [] at hp
      split at hp
      · simp at hp
      · split at hp
        · split at hp <;> simp_all
        · simp at hp

/-! ### Helper lemmas about the Python string order -/

theorem charListLe_total (a : List Char) : ∀ b, charListLe a b = true ∨ charListLe b a = true := by
  induction a with
  | nil => intro b; left; rfl
  | cons x xs ih =>
    intro b
    cases b with
    | nil => right; rfl
    | cons y ys =>
      rcases lt_trichotomy x y with h | h | h
      · left; simp [charListLe, h]
      · subst h
        rcases ih ys with h2 | h2
        · left; simp [charListLe, lt_irrefl, h2]
        · right; simp [charListLe, lt_irrefl, h2]
      · right; simp [charListLe, h]

theorem charListLe_trans (a : List Char) :
    ∀ b c, charListLe a b = true → charListLe b c = true → charListLe a c = true := by
  induction a with
  | nil => intro b c _ _; rfl
  | cons x xs ih =>
    intro b c hab hbc
    cases b with
    | nil => simp [charListLe] at hab
    | cons y ys =>
      cases c with
      | nil => simp [charListLe] at hbc
      | cons z zs =>
        rcases lt_trichotomy x y with h1 | h1 | h1
        · rcases lt_trichotomy y z with h2 | h2 | h2
          · have h3 : x < z := lt_trans h1 h2
            simp [charListLe, h3]
          · subst h2; simp [charListLe, h1]
          · have h3 : ¬ y < z := lt_asymm h2
            simp [charListLe, h3, h2] at hbc
        · subst h1
          rcases lt_trichotomy x z with h2 | h2 | h2
          · simp [charListLe, h2]
          · subst h2
            simp only [charListLe, lt_irrefl, if_false] at hab hbc ⊢
            exact ih ys zs hab hbc
          · have h3 : ¬ x < z := lt_asymm h2
            simp [charListLe, h3, h2] at hbc
        · have h3 : ¬ x < y := lt_asymm h1
          simp [charListLe, h3, h1] at hab

theorem sortedStr_sorted (l : List String) :
    (sortedStr l).Sorted (fun a b => strLe a b = true) := by
  have inst1 : IsTotal String (fun a b => strLe a b = true) :=
    ⟨fun a b => charListLe_total a.data b.data⟩
  have inst2 : IsTrans String (fun a b => strLe a b = true) :=
    ⟨fun a b c => charListLe_trans a.data b.data c.data⟩
  exact @List.sorted_insertionSort String (fun a b => strLe a b = true) _ inst1 inst2 l

theorem sortedStr_perm (l : List String) : (sortedStr l).Perm l :=
  List.perm_insertionSort _ l

/-! ### Helper lemmas about single-state mutator invocations -/

theorem update_add_absent (st n t : String) (a : Alarm) (rest : List Alarm)
    (putRes : PutParams → Except String Unit)
    (hst : st ∈ VALID_STATES) (h : t ∉ stListOf st a) :
    ∃ p, ppListOf st p = pySet (stListOf st a) ++ [t]
      ∧ (∀ st2, st2 ∈ VALID_STATES → st2 ≠ st → ppListOf st2 p = pySet (stListOf st2 a))
      ∧ update_alarm_sns_topic false n t [st] "add" (.ok (a :: rest)) putRes
          = (match putRes p with
             | .ok _ => ⟨⟨true, [st ++ ": Adicionado tópico SNS"], none⟩, some p⟩
             | .error e => ⟨⟨false, [st ++ ": Adicionado tópico SNS"],
                 some ("Erro ao atualizar alarme: " ++ e)⟩, some p⟩) := by
  simp only [VALID_STATES, List.mem_cons, List.mem_singleton, List.not_mem_nil, or_false] at hst
  rcases hst with h1 | h1 | h1 <;> subst h1
  · have h2 : t ∉ pySet a.okActions := by simp_all [pySet, List.mem_dedup, stListOf]
    refine ⟨buildPutParams n a (pySet a.okActions ++ [t]) (pySet a.alarmActions)
      (pySet a.insufficientDataActions), ?_, ?_, ?_⟩
    · simp [ppListOf, stListOf, buildPutParams]
    · intro st2 hst2 hne
      simp only [VALID_STATES, List.mem_cons, List.mem_singleton, List.not_mem_nil, or_false] at hst2
      rcases hst2 with h2 | h2 | h2 <;> subst h2 <;> simp_all [ppListOf, stListOf, buildPutParams]
    · simp only [update_alarm_sns_topic, guardState, stateStep]
      simp [h2, pySetAdd]
  · have h2 : t ∉ pySet a.alarmActions := by simp_all [pySet, List.mem_dedup, stListOf]
    refine ⟨buildPutParams n a (pySet a.okActions) (pySet a.alarmActions ++ [t])
      (pySet a.insufficientDataActions), ?_, ?_, ?_⟩
    · simp [ppListOf, stListOf, buildPutParams]
    · intro st2 hst2 hne
      simp only [VALID_STATES, List.mem_cons, List.mem_singleton, List.not_mem_nil, or_false] at hst2
      rcases hst2 with h2 | h2 | h2 <;> subst h2 <;> simp_all [ppListOf, stListOf, buildPutParams]
    · simp only [update_alarm_sns_topic, guardState, stateStep]
      simp [h2, pySetAdd]
  · have h2 : t ∉ pySet a.insufficientDataActions := by simp_all [pySet, List.mem_dedup, stListOf]
    refine ⟨buildPutParams n a (pySet a.okActions) (pySet a.alarmActions)
      (pySet a.insufficientDataActions ++ [t]), ?_, ?_, ?_⟩
    · simp [ppListOf, stListOf, buildPutParams]
    · intro st2 hst2 hne
      simp only [VALID_STATES, List.mem_cons, List.mem_singleton, List.not_mem_nil, or_false] at hst2
      rcases hst2 with h2 | h2 | h2 <;> subst h2 <;> simp_all [ppListOf, stListOf, buildPutParams]
    · simp only [update_alarm_sns_topic, guardState, stateStep]
      simp [h2, pySetAdd]

theorem update_add_present (st n t : String) (dry : Bool) (a : Alarm) (rest : List Alarm)
    (putRes : PutParams → Except String Unit)
    (hst : st ∈ VALID_STATES) (h : t ∈ stListOf st a) :
    update_alarm_sns_topic dry n t [st] "add" (.ok (a :: rest)) putRes
      = ⟨⟨true, [st ++ ": Tópico já presente (nenhuma ação)"], none⟩, none⟩ := by
  simp only [VALID_STATES, List.mem_cons, List.mem_singleton, List.not_mem_nil, or_false] at hst
  rcases hst with h1 | h1 | h1 <;> subst h1 <;>
  · first
    | (have h2 : t ∈ pySet a.okActions := by simp_all [pySet, List.mem_dedup, stListOf]
       simp only [update_alarm_sns_topic, guardState, stateStep]
       simp [h2])
    | (have h2 : t ∈ pySet a.alarmActions := by simp_all [pySet, List.mem_dedup, stListOf]
       simp only [update_alarm_sns_topic, guardState, stateStep]
       simp [h2])
    | (have h2 : t ∈ pySet a.insufficientDataActions := by simp_all [pySet, List.mem_dedup, stListOf]
       simp only [update_alarm_sns_topic, guardState, stateStep]
       simp [h2])

theorem update_remove_present (st n t : String) (a : Alarm) (rest : List Alarm)
    (putRes : PutParams → Except String Unit)
    (hst : st ∈ VALID_STATES) (h : t ∈ stListOf st a) :
    ∃ p, ppListOf st p = pySetRemove (pySet (stListOf st a)) t
      ∧ (∀ st2, st2 ∈ VALID_STATES → st2 ≠ st → ppListOf st2 p = pySet (stListOf st2 a))
      ∧ update_alarm_sns_topic false n t [st] "remove" (.ok (a :: rest)) putRes
          = (match putRes p with
             | .ok _ => ⟨⟨true, [st ++ ": Removido tópico SNS"], none⟩, some p⟩
             | .error e => ⟨⟨false, [st ++ ": Removido tópico SNS"],
                 some ("Erro ao atualizar alarme: " ++ e)⟩, some p⟩) := by
  simp only [VALID_STATES, List.mem_cons, List.mem_singleton, List.not_mem_nil, or_false] at hst
  rcases hst with h1 | h1 | h1 <;> subst h1
  · have h2 : t ∈ pySet a.okActions := by simp_all [pySet, List.mem_dedup, stListOf]
    refine ⟨buildPutParams n a (pySetRemove (pySet a.okActions) t) (pySet a.alarmActions)
      (pySet a.insufficientDataActions), ?_, ?_, ?_⟩
    · simp [ppListOf, stListOf, buildPutParams]
    · intro st2 hst2 hne
      simp only [VALID_STATES, List.mem_cons, List.mem_singleton, List.not_mem_nil, or_false] at hst2
      rcases hst2 with h2 | h2 | h2 <;> subst h2 <;> simp_all [ppListOf, stListOf, buildPutParams]
    · simp only [update_alarm_sns_topic, guardState, stateStep]
      simp [h2]
  · have h2 : t ∈ pySet a.alarmActions := by simp_all [pySet, List.mem_dedup, stListOf]
    refine ⟨buildPutParams n a (pySet a.okActions) (pySetRemove (pySet a.alarmActions) t)
      (pySet a.insufficientDataActions), ?_, ?_, ?_⟩
    · simp [ppListOf, stListOf, buildPutParams]
    · intro st2 hst2 hne
      simp only [VALID_STATES, List.mem_cons, List.mem_singleton, List.not_mem_nil, or_false] at hst2
      rcases hst2 with h2 | h2 | h2 <;> subst h2 <;> simp_all [ppListOf, stListOf, buildPutParams]
    · simp only [update_alarm_sns_topic, guardState, stateStep]
      simp [h2]
  · have h2 : t ∈ pySet a.insufficientDataActions := by simp_all [pySet, List.mem_dedup, stListOf]
    refine ⟨buildPutParams n a (pySet a.okActions) (pySet a.alarmActions)
      (pySetRemove (pySet a.insufficientDataActions) t), ?_, ?_, ?_⟩
    · simp [ppListOf, stListOf, buildPutParams]
    · intro st2 hst2 hne
      simp only [VALID_STATES, List.mem_cons, List.mem_singleton, List.not_mem_nil, or_false] at hst2
      rcases hst2 with h2 | h2 | h2 <;> subst h2 <;> simp_all [ppListOf, stListOf, buildPutParams]
    · simp only [update_alarm_sns_topic, guardState, stateStep]
      simp [h2]

/-- A persist failure is converted into a failed result carrying the
message; it does not escape the call. -/
theorem update_persist_error (dry : Bool) (n t : String) (states : List String)
    (action : String) (fetch : Except String (List Alarm))
    (putRes : PutParams → Except String Unit) (p : PutParams) (e : String)
    (hp : (update_alarm_sns_topic dry n t states action fetch putRes).putCall = some p)
    (he : putRes p = .error e) :
    (update_alarm_sns_topic dry n t states action fetch putRes).result.success = false
    ∧ (update_alarm_sns_topic dry n t states action fetch putRes).result.error
        = some ("Erro ao atualizar alarme: " ++ e) := by
  unfold update_alarm_sns_topic at hp ⊢
  cases fetch with
  | error e2 => simp at hp
  | ok ms =>
    cases ms with
    | nil => simp at hp
    | cons a rest =>
      dsimp only [] at hp ⊢
      split at hp
      · simp at hp
      · rename_i h2
        split at hp
        · rename_i h3
          rw [if_neg h2, if_pos h3]
          split at hp
          · rename_i val hq
            simp only [Option.some.injEq] at hp
            subst hp
            rw [he] at hq
            exact absurd hq (by simp)
          · rename_i e2 hq
            simp only [Option.some.injEq] at hp
            subst hp
            rw [he] at hq
            simp only [Except.error.injEq] at hq
            subst hq
            exact ⟨rfl, rfl⟩
        · rename_i h3
          simp at hp

/-! ### Helper lemmas about the processing loop -/

theorem processOne_processed (s : Stats) (o : UpdateOutcome) :
    (processOne s o).processed = s.processed ∧ (processOne s o).found = s.found := by
  unfold processOne
  split
  · exact ⟨rfl, rfl⟩
  · split
    · split
      · split
        · exact ⟨rfl, rfl⟩
        · exact ⟨rfl, rfl⟩
      · exact ⟨rfl, rfl⟩
    · exact ⟨rfl, rfl⟩

theorem loop_foldl_stats (dry : Bool) (topic : String) (states : List String) (action : String)
    (refetch : String → Except String (List Alarm)) (putRes : PutParams → Except String Unit)
    (names : List String) : ∀ (acc : Stats × List PutParams),
    ((names.foldl (processLoopStep dry topic states action refetch putRes) acc).1.processed
        = acc.1.processed + names.length)
    ∧ ((names.foldl (processLoopStep dry topic states action refetch putRes) acc).1.found
        = acc.1.found) := by
  induction names with
  | nil => intro acc; simp
  | cons n ns ih =>
    intro acc
    simp only [List.foldl_cons]
    have h1 := ih (processLoopStep dry topic states action refetch putRes acc n)
    have h2 := processOne_processed acc.1
      (update_alarm_sns_topic dry n topic states action (refetch n) putRes)
    constructor
    · rw [h1.1]
      show (processOne acc.1 _).processed + 1 + ns.length = acc.1.processed + (ns.length + 1)
      rw [h2.1]; omega
    · rw [h1.2]
      show (processOne acc.1 _).found = acc.1.found
      exact h2.2

/-- The live loop always terminates with one processed count per found
alarm, whatever the per-alarm oracles return. -/
theorem process_reaches_summary (doc : AlarmsJson) (topic : String) (states : List String)
    (action : String) (dir : String → Option Alarm)
    (refetch : String → Except String (List Alarm)) (putRes : PutParams → Except String Unit)
    (r : Stats × List PutParams)
    (h : process_alarms false doc topic states action dir refetch putRes = .ok r) :
    r.1.processed = r.1.found := by
  unfold process_alarms at h
  dsimp only [] at h
  split at h
  · exact absurd h (by simp)
  · split at h
    · exact absurd h (by simp)
    · rename_i names heq
      split at h
      · exact absurd h (by simp)
      · split at h
        · exact absurd h (by simp)
        · split at h
          · rename_i hd
            exact absurd hd (by simp)
          · rw [Except.ok.injEq] at h
            subst h
            have hl := loop_foldl_stats false topic states action refetch putRes
              (sortedStr ((get_alarm_details dir names).1.map (fun p => p.1)))
              (⟨names.length, (get_alarm_details dir names).1.length,
                (get_alarm_details dir names).2.length, 0, 0, 0, 0⟩, [])
            rw [hl.1, hl.2]
            have hle : (sortedStr ((get_alarm_details dir names).1.map (fun p => p.1))).length
                = (get_alarm_details dir names).1.length := by
              rw [(sortedStr_perm _).length_eq, List.length_map]
            simp [hle]

/-- A dry-run `process_alarms` records no persist calls at all. -/
theorem process_dry_run_no_puts (doc : AlarmsJson) (topic : String) (states : List String)
    (action : String) (dir : String → Option Alarm)
    (refetch : String → Except String (List Alarm)) (putRes : PutParams → Except String Unit)
    (r : Stats × List PutParams)
    (h : process_alarms true doc topic states action dir refetch putRes = .ok r) :
    r.2 = [] := by
  unfold process_alarms at h
  dsimp only [] at h
  split at h
  · exact absurd h (by simp)
  · split at h
    · exact absurd h (by simp)
    · split at h
      · exact absurd h (by simp)
      · split at h
        · exact absurd h (by simp)
        · rw [if_pos rfl, Except.ok.injEq] at h
          subst h
          rfl

/-! ### Helper lemmas about batching -/

theorem batchesJoin_aux (k : Nat) : ∀ l : List String, l.length ≤ k * batch_size →
    ((List.range k).map (fun i => (l.drop (i * batch_size)).take batch_size)).flatten = l := by
  induction k with
  | zero =>
    intro l h
    rw [List.range_zero, List.map_nil, List.flatten_nil]
    exact (List.length_eq_zero.mp (Nat.le_zero.mp (by simpa using h))).symm
  | succ k ih =>
    intro l h
    rw [List.range_succ_eq_map, List.map_cons, List.map_map, List.flatten_cons]
    have hfun : ((fun i => (l.drop (i * batch_size)).take batch_size) ∘ Nat.succ)
        = (fun i => (((l.drop batch_size).drop (i * batch_size)).take batch_size)) := by
      funext i
      simp only [Function.comp_apply, List.drop_drop]
      congr 1
      rw [Nat.succ_mul, Nat.add_comm (i * batch_size) batch_size]
    rw [hfun]
    rw [ih (l.drop batch_size) (by
      rw [List.length_drop]
      have h2 : l.length ≤ Nat.succ k * batch_size := h
      simp only [batch_size] at h2 ⊢
      omega)]
    simp only [Nat.zero_mul, List.drop_zero]
    exact List.take_append_drop batch_size l

theorem batches_join (l : List String) : (batches l).flatten = l := by
  unfold batches batchStarts
  rw [List.map_map]
  have hfun : ((fun i => (l.drop i).take batch_size) ∘ (fun k => k * batch_size))
      = (fun i => (l.drop (i * batch_size)).take batch_size) := rfl
  rw [hfun]
  apply batchesJoin_aux
  simp only [batch_size]
  omega

theorem batches_length (l : List String) :
    (batches l).length = (l.length + batch_size - 1) / batch_size := by
  simp [batches, batchStarts]

theorem batches_size_le (l : List String) (b : List String) (hb : b ∈ batches l) :
    b.length ≤ batch_size := by
  unfold batches batchStarts at hb
  simp only [List.map_map, List.mem_map] at hb
  obtain ⟨i, _, rfl⟩ := hb
  exact List.length_take_le _ _

theorem batches_map_length_250 (l : List String) (h : l.length = 250) :
    (batches l).map List.length = [100, 100, 50] := by
  unfold batches batchStarts
  rw [h]
  have h3 : (250 + batch_size - 1) / batch_size = 3 := by simp [batch_size]
  rw [h3]
  have hr : List.range 3 = [0, 1, 2] := rfl
  rw [hr]
  simp [List.length_take, List.length_drop, h, batch_size]

theorem fetch_foldl_snd (dir : String → Option Alarm) (bs : List (List String)) :
    ∀ acc : List (String × AlarmSummary) × List String,
    (bs.foldl (fetchBatchStep dir) acc).2
      = acc.2 ++ (bs.map (fun b =>
          b.filter (fun n => n ∉ (describeBatch dir b).map (fun a => a.alarmName)))).flatten := by
  induction bs with
  | nil => intro acc; simp
  | cons b bs ih =>
    intro acc
    simp only [List.foldl_cons, List.map_cons, List.flatten_cons]
    rw [ih]
    show (fetchBatchStep dir acc b).2 ++ _ = _
    unfold fetchBatchStep
    dsimp only []
    rw [List.append_assoc]

theorem get_alarm_details_not_found (dir : String → Option Alarm) (l : List String) :
    (get_alarm_details dir l).2
      = ((batches l).map (fun b =>
          b.filter (fun n => n ∉ (describeBatch dir b).map (fun a => a.alarmName)))).flatten := by
  unfold get_alarm_details
  rw [fetch_foldl_snd]
  simp

/-! ### Small unfolding lemmas for the state accessors -/

theorem stListOf_OK (a : Alarm) : stListOf "OK" a = a.okActions := rfl

theorem stListOf_IN_ALARM (a : Alarm) : stListOf "IN_ALARM" a = a.alarmActions := rfl

theorem stListOf_INSUFFICIENT_DATA (a : Alarm) :
    stListOf "INSUFFICIENT_DATA" a = a.insufficientDataActions := rfl

theorem ppListOf_build_OK (n : String) (a : Alarm) (x y z : List String) :
    ppListOf "OK" (buildPutParams n a x y z) = x := rfl

theorem ppListOf_build_IN_ALARM (n : String) (a : Alarm) (x y z : List String) :
    ppListOf "IN_ALARM" (buildPutParams n a x y z) = y := rfl

theorem ppListOf_build_INSUFFICIENT_DATA (n : String) (a : Alarm) (x y z : List String) :
    ppListOf "INSUFFICIENT_DATA" (buildPutParams n a x y z) = z := rfl

/-! ### Claim theorems -/

/-- C1 counterexample: the persist payload is not sorted.  Adding topic
`"a"` to an alarm whose OK action set holds `"b"` persists the OK list
`["b", "a"]`, while sorting the mutated set would give `["a", "b"]`.
The claim that the payload lists are produced by sorting is false. -/
theorem C1_counterexample :
    ((update_alarm_sns_topic false "alarm-1" "a" ["OK"] "add"
        (.ok [alarmOkB]) putOk).putCall.map (fun p => p.okActions)) = some ["b", "a"]
    ∧ sortedStr ["b", "a"] = ["a", "b"]
    ∧ (["b", "a"] : List String) ≠ ["a", "b"] := by decide

/-- C1 (amended): when the mutator persists, the three action lists of
the payload are the mutated action sets converted to lists directly (no
sorting applied): each is duplicate-free and holds exactly the fetched
alarm's entries for that state, with the topic added when that state is
an add target and removed when it is a remove target. -/
theorem C1_persist_list_characterization
    (dry : Bool) (n t : String) (states : List String) (action : String)
    (putRes : PutParams → Except String Unit) (a : Alarm) (rest : List Alarm) (p : PutParams)
    (hp : (update_alarm_sns_topic dry n t states action (.ok (a :: rest)) putRes).putCall
        = some p) :
    (p.okActions.Nodup ∧ ∀ x, x ∈ p.okActions ↔
        (if "OK" ∈ states ∧ action = "add" then x ∈ a.okActions ∨ x = t
         else if "OK" ∈ states ∧ action = "remove" then x ∈ a.okActions ∧ x ≠ t
         else x ∈ a.okActions))
    ∧ (p.alarmActions.Nodup ∧ ∀ x, x ∈ p.alarmActions ↔
        (if "IN_ALARM" ∈ states ∧ action = "add" then x ∈ a.alarmActions ∨ x = t
         else if "IN_ALARM" ∈ states ∧ action = "remove" then x ∈ a.alarmActions ∧ x ≠ t
         else x ∈ a.alarmActions))
    ∧ (p.insufficientDataActions.Nodup ∧ ∀ x, x ∈ p.insufficientDataActions ↔
        (if "INSUFFICIENT_DATA" ∈ states ∧ action = "add" then
           x ∈ a.insufficientDataActions ∨ x = t
         else if "INSUFFICIENT_DATA" ∈ states ∧ action = "remove" then
           x ∈ a.insufficientDataActions ∧ x ≠ t
         else x ∈ a.insufficientDataActions)) := by
  obtain ⟨a2, rest2, heq, hpp⟩ := putCall_inv _ _ _ _ _ _ _ _ hp
  rw [Except.ok.injEq, List.cons.injEq] at heq
  obtain ⟨ha, -⟩ := heq
  subst ha
  subst hpp
  refine ⟨?_, ?_, ?_⟩
  · have hg := guardState_mem "OK" states action t (pySet a.okActions) (pySet_nodup _)
    refine ⟨hg.1, ?_⟩
    intro x
    have hx := hg.2 x
    simp only [mem_pySet] at hx
    simpa [buildPutParams] using hx
  · have hg := guardState_mem "IN_ALARM" states action t (pySet a.alarmActions) (pySet_nodup _)
    refine ⟨hg.1, ?_⟩
    intro x
    have hx := hg.2 x
    simp only [mem_pySet] at hx
    simpa [buildPutParams] using hx
  · have hg := guardState_mem "INSUFFICIENT_DATA" states action t
      (pySet a.insufficientDataActions) (pySet_nodup _)
    refine ⟨hg.1, ?_⟩
    intro x
    have hx := hg.2 x
    simp only [mem_pySet] at hx
    simpa [buildPutParams] using hx

/-- C1 witness: concrete persisting invocation with duplicate-free payload. -/
theorem C1_witness :
    ((update_alarm_sns_topic false "alarm-1" "a" ["OK"] "add" (.ok [alarmOkB]) putOk).putCall
        = some (buildPutParams "alarm-1" alarmOkB ["b", "a"] [] []))
    ∧ (buildPutParams "alarm-1" alarmOkB ["b", "a"] [] []).okActions.Nodup :=
  ⟨by decide,
    (C1_persist_list_characterization false "alarm-1" "a" ["OK"] "add" putOk alarmOkB []
      (buildPutParams "alarm-1" alarmOkB ["b", "a"] [] []) (by decide)).1.1⟩

/-- C2 counterexample: on an alarm whose OK action list is `["a", "a"]`,
Add of an absent topic followed by Remove of the same topic persists
`["a"]`, not the original `["a", "a"]`: multiplicity is not restored. -/
theorem C2_counterexample :
    ((update_alarm_sns_topic false "alarm-1" "t" ["OK"] "remove"
        (.ok [{ alarmOkDup with okActions :=
          ((update_alarm_sns_topic false "alarm-1" "t" ["OK"] "add"
              (.ok [alarmOkDup]) putOk).putCall.map (fun p => p.okActions)).getD [] }])
        putOk).putCall.map (fun p => p.okActions)) = some ["a"]
    ∧ alarmOkDup.okActions = ["a", "a"]
    ∧ some ["a"] ≠ some alarmOkDup.okActions := by decide

/-- C2 (amended): for one target state, a successful Add of an absent
topic followed by a successful Remove of the same topic leaves the
stored action collection with exactly the original list's distinct
elements: the stored list is duplicate-free and a permutation of the
original list deduplicated, hence a permutation of the original itself
whenever the original has no duplicate entries.  Exact order and
multiplicity are not restored, because the lists round-trip through an
unordered set; the statement is invariant under any set iteration
order (the re-fetched list is constrained only up to permutation). -/
theorem C2_round_trip (n1 n2 t st : String) (a a2 : Alarm) (rest1 rest2 : List Alarm)
    (putRes1 putRes2 : PutParams → Except String Unit)
    (hst : st ∈ VALID_STATES) (ht : t ∉ stListOf st a)
    (h1 : (update_alarm_sns_topic false n1 t [st] "add"
        (.ok (a :: rest1)) putRes1).result.success = true)
    (ha2 : (stListOf st a2).Perm (storedListAfter st a
        (update_alarm_sns_topic false n1 t [st] "add" (.ok (a :: rest1)) putRes1)))
    (h2 : (update_alarm_sns_topic false n2 t [st] "remove"
        (.ok (a2 :: rest2)) putRes2).result.success = true) :
    (storedListAfter st a2
        (update_alarm_sns_topic false n2 t [st] "remove" (.ok (a2 :: rest2)) putRes2)).Nodup
    ∧ (storedListAfter st a2
        (update_alarm_sns_topic false n2 t [st] "remove" (.ok (a2 :: rest2)) putRes2)).Perm
        (stListOf st a).dedup
    ∧ (∀ x, x ∈ storedListAfter st a2
          (update_alarm_sns_topic false n2 t [st] "remove" (.ok (a2 :: rest2)) putRes2)
        ↔ x ∈ stListOf st a)
    ∧ ((stListOf st a).Nodup →
        (storedListAfter st a2
          (update_alarm_sns_topic false n2 t [st] "remove" (.ok (a2 :: rest2)) putRes2)).Perm
          (stListOf st a)) := by
  have htp : t ∉ pySet (stListOf st a) := fun hm => ht (mem_pySet.mp hm)
  obtain ⟨p1, hp1, _, heq1⟩ := update_add_absent st n1 t a rest1 putRes1 hst ht
  cases hq1 : putRes1 p1 with
  | error e =>
    rw [heq1, hq1] at h1
    simp at h1
  | ok u =>
    rw [heq1, hq1] at ha2
    simp only [storedListAfter, if_true] at ha2
    rw [hp1] at ha2
    have ht2 : t ∈ stListOf st a2 := ha2.mem_iff.mpr (by simp)
    obtain ⟨p2, hp2, _, heq2⟩ := update_remove_present st n2 t a2 rest2 putRes2 hst ht2
    cases hq2 : putRes2 p2 with
    | error e =>
      rw [heq2, hq2] at h2
      simp at h2
    | ok u2 =>
      rw [heq2, hq2]
      simp only [storedListAfter, if_true]
      rw [hp2]
      have hperm : (pySet (stListOf st a2)).Perm (pySet (stListOf st a) ++ [t]) := by
        have hd := ha2.dedup
        rwa [List.dedup_eq_self.mpr (nodup_append_singleton (pySet_nodup _) htp)] at hd
      have hrm : (pySetRemove (pySet (stListOf st a2)) t).Perm
          (pySetRemove (pySet (stListOf st a) ++ [t]) t) := List.Perm.filter _ hperm
      rw [pySetRemove_append_singleton htp] at hrm
      refine ⟨List.Nodup.filter _ (pySet_nodup _), hrm, ?_, ?_⟩
      · intro x
        rw [hrm.mem_iff]
        exact mem_pySet
      · intro hnd
        rwa [pySet_eq_self hnd] at hrm

/-- C2 witness: concrete Add-then-Remove round trip on a duplicate-free
OK action list. -/
theorem C2_witness :
    ("OK" ∈ VALID_STATES ∧ "t" ∉ stListOf "OK" alarmOkX
      ∧ (update_alarm_sns_topic false "alarm-1" "t" ["OK"] "add"
          (.ok [alarmOkX]) putOk).result.success = true
      ∧ (stListOf "OK" alarmOkXT).Perm (storedListAfter "OK" alarmOkX
          (update_alarm_sns_topic false "alarm-1" "t" ["OK"] "add" (.ok [alarmOkX]) putOk))
      ∧ (update_alarm_sns_topic false "alarm-1" "t" ["OK"] "remove"
          (.ok [alarmOkXT]) putOk).result.success = true)
    ∧ (storedListAfter "OK" alarmOkXT
        (update_alarm_sns_topic false "alarm-1" "t" ["OK"] "remove"
          (.ok [alarmOkXT]) putOk)).Perm
        (stListOf "OK" alarmOkX).dedup :=
  ⟨⟨by decide, by decide, by decide, by decide, by decide⟩,
    (C2_round_trip "alarm-1" "alarm-1" "t" "OK" alarmOkX alarmOkXT [] [] putOk putOk
      (by decide) (by decide) (by decide) (by decide) (by decide)).2.1⟩

/-- C3 counterexample: a present-but-empty `Dimensions` entry on the
fetched alarm is not copied into the persist payload, contradicting the
claim that every present optional field is copied. -/
theorem C3_counterexample :
    alarmEmptyDims.dimensions = some []
    ∧ ((update_alarm_sns_topic false "alarm-1" "t" ["OK"] "add"
        (.ok [alarmEmptyDims]) putOk).putCall.map (fun p => p.dimensions)) = some none
    ∧ (none : Option (List String)) ≠ alarmEmptyDims.dimensions := by decide

/-- C3 (amended): in every persisted payload the required fields are
always copied; `Statistic`, `ExtendedStatistic`, `Unit`,
`AlarmDescription`, `DatapointsToAlarm`, `ThresholdMetricId` and
`ActionsEnabled` are copied exactly as present or absent;
`TreatMissingData` is copied when present and set to `"missing"` when
absent; `Dimensions`, `Metrics` and `Tags` are copied only when present
and non-empty, and dropped when present but empty. -/
theorem C3_payload_fields (dry : Bool) (n t : String) (states : List String) (action : String)
    (putRes : PutParams → Except String Unit) (a : Alarm) (rest : List Alarm) (p : PutParams)
    (hp : (update_alarm_sns_topic dry n t states action (.ok (a :: rest)) putRes).putCall
        = some p) :
    p.alarmName = n
    ∧ p.metricName = a.metricName ∧ p.nameSpace = a.nameSpace ∧ p.period = a.period
    ∧ p.evaluationPeriods = a.evaluationPeriods ∧ p.threshold = a.threshold
    ∧ p.comparisonOperator = a.comparisonOperator
    ∧ p.statistic = a.statistic ∧ p.extendedStatistic = a.extendedStatistic
    ∧ p.unit = a.unit ∧ p.alarmDescription = a.alarmDescription
    ∧ p.datapointsToAlarm = a.datapointsToAlarm ∧ p.thresholdMetricId = a.thresholdMetricId
    ∧ p.actionsEnabled = a.actionsEnabled
    ∧ (∀ v, a.treatMissingData = some v → p.treatMissingData = some v)
    ∧ (a.treatMissingData = none → p.treatMissingData = some "missing")
    ∧ (∀ ds, a.dimensions = some ds → ds ≠ [] → p.dimensions = some ds)
    ∧ (a.dimensions = some [] → p.dimensions = none)
    ∧ (a.dimensions = none → p.dimensions = none)
    ∧ (∀ ms, a.metrics = some ms → ms ≠ [] → p.metrics = some ms)
    ∧ (a.metrics = some [] → p.metrics = none)
    ∧ (a.metrics = none → p.metrics = none)
    ∧ (∀ ts, a.tags = some ts → ts ≠ [] → p.tags = some ts)
    ∧ (a.tags = some [] → p.tags = none)
    ∧ (a.tags = none → p.tags = none) := by
  obtain ⟨a2, rest2, heq, hpp⟩ := putCall_inv _ _ _ _ _ _ _ _ hp
  rw [Except.ok.injEq, List.cons.injEq] at heq
  obtain ⟨ha, -⟩ := heq
  subst ha
  subst hpp
  refine ⟨rfl, rfl, rfl, rfl, rfl, rfl, rfl, rfl, rfl, rfl, rfl, rfl, rfl, rfl,
    ?_, ?_, ?_, ?_, ?_, ?_, ?_, ?_, ?_, ?_, ?_⟩
  · intro v hv; simp [buildPutParams, hv]
  · intro hv; simp [buildPutParams, hv]
  · intro ds hds hne; simp [buildPutParams, hds, hne]
  · intro hds; simp [buildPutParams, hds]
  · intro hds; simp [buildPutParams, hds]
  · intro ms hms hne; simp [buildPutParams, hms, hne]
  · intro hms; simp [buildPutParams, hms]
  · intro hms; simp [buildPutParams, hms]
  · intro ts hts hne; simp [buildPutParams, hts, hne]
  · intro hts; simp [buildPutParams, hts]
  · intro hts; simp [buildPutParams, hts]

/-- C3 witness: concrete persisting invocation copying `Statistic`. -/
theorem C3_witness :
    ((update_alarm_sns_topic false "alarm-1" "t" ["OK"] "add" (.ok [sampleAlarm]) putOk).putCall
        = some (buildPutParams "alarm-1" sampleAlarm ["t"] [] []))
    ∧ (buildPutParams "alarm-1" sampleAlarm ["t"] [] []).statistic = sampleAlarm.statistic :=
  ⟨by decide,
    (C3_payload_fields false "alarm-1" "t" ["OK"] "add" putOk sampleAlarm []
      (buildPutParams "alarm-1" sampleAlarm ["t"] [] []) (by decide)).2.2.2.2.2.2.2.1⟩

/-- C4: with the dry-run flag set, the mutator never attempts a persist
call, and a completed dry-run of `process_alarms` records zero persist
calls for any input. -/
theorem C4_dry_run_no_persist (n t : String) (states : List String) (action : String)
    (fetch : Except String (List Alarm)) (putRes : PutParams → Except String Unit)
    (doc : AlarmsJson) (dir : String → Option Alarm)
    (refetch : String → Except String (List Alarm)) (r : Stats × List PutParams) :
    (update_alarm_sns_topic true n t states action fetch putRes).putCall = none
    ∧ (process_alarms true doc t states action dir refetch putRes = .ok r → r.2 = []) := by
  constructor
  · unfold update_alarm_sns_topic
    cases fetch with
    | error e => simp
    | ok ms =>
      cases ms with
      | nil => simp
      | cons a rest =>
        dsimp only []
        split
        · simp
        · split
          · simp_all
          · simp
  · exact process_dry_run_no_puts doc t states action dir refetch putRes r

/-- C4 witness: a concrete completed dry run records no persist calls. -/
theorem C4_witness :
    (process_alarms true (.arr ["alarm-1"]) "t" ["OK"] "add" dirOne refetchOne putOk
        = .ok (⟨1, 1, 0, 0, 0, 0, 0⟩, []))
    ∧ ((⟨1, 1, 0, 0, 0, 0, 0⟩ : Stats), ([] : List PutParams)).2 = [] :=
  ⟨rfl,
    (C4_dry_run_no_persist "alarm-1" "t" ["OK"] "add" (.ok [sampleAlarm]) putOk
      (.arr ["alarm-1"]) dirOne refetchOne (⟨1, 1, 0, 0, 0, 0, 0⟩, [])).2 rfl⟩

/-- C5 counterexample: with target states OK and IN_ALARM, an alarm whose
INSUFFICIENT_DATA action list holds a duplicate has that list persisted
deduplicated (`["a"]` instead of `["a", "a"]`), so the list as stored is
not left byte-for-byte unchanged. -/
theorem C5_counterexample :
    alarmInsDup.insufficientDataActions = ["a", "a"]
    ∧ ((update_alarm_sns_topic false "alarm-1" "t" ["OK", "IN_ALARM"] "add"
        (.ok [alarmInsDup]) putOk).putCall.map (fun p => p.insufficientDataActions))
      = some ["a"]
    ∧ some ["a"] ≠ some alarmInsDup.insufficientDataActions := by decide

/-- C5 (amended): a state's action set is only modified when that state
is requested: for any requested state set, every unrequested state's
payload list is duplicate-free, holds exactly the fetched list's
elements, and is a permutation of the fetched list deduplicated (of the
fetched list itself when it has no duplicates); in particular with
states OK and IN_ALARM the INSUFFICIENT_DATA set is untouched and every
pass-through field is copied unchanged.  Only set-level facts are
asserted, since the untouched lists still round-trip through an
unordered set. -/
theorem C5_isolation (dry : Bool) (n t : String) (action : String)
    (putRes : PutParams → Except String Unit) (a : Alarm) (rest : List Alarm) (p : PutParams) :
    (∀ states st, st ∈ VALID_STATES → st ∉ states →
      (update_alarm_sns_topic dry n t states action (.ok (a :: rest)) putRes).putCall = some p →
      (ppListOf st p).Nodup
      ∧ (ppListOf st p).Perm (stListOf st a).dedup
      ∧ (∀ x, x ∈ ppListOf st p ↔ x ∈ stListOf st a)
      ∧ ((stListOf st a).Nodup → (ppListOf st p).Perm (stListOf st a)))
    ∧ ((update_alarm_sns_topic dry n t ["OK", "IN_ALARM"] action
          (.ok (a :: rest)) putRes).putCall = some p →
      p.insufficientDataActions.Nodup
      ∧ p.insufficientDataActions.Perm a.insufficientDataActions.dedup
      ∧ (∀ x, x ∈ p.insufficientDataActions ↔ x ∈ a.insufficientDataActions)
      ∧ (a.insufficientDataActions.Nodup →
          p.insufficientDataActions.Perm a.insufficientDataActions)
      ∧ p.metricName = a.metricName ∧ p.nameSpace = a.nameSpace ∧ p.period = a.period
      ∧ p.evaluationPeriods = a.evaluationPeriods ∧ p.threshold = a.threshold
      ∧ p.comparisonOperator = a.comparisonOperator ∧ p.statistic = a.statistic
      ∧ p.extendedStatistic = a.extendedStatistic ∧ p.unit = a.unit
      ∧ p.alarmDescription = a.alarmDescription
      ∧ p.datapointsToAlarm = a.datapointsToAlarm
      ∧ p.thresholdMetricId = a.thresholdMetricId
      ∧ p.actionsEnabled = a.actionsEnabled) := by
  constructor
  · intro states st hstv hnot hp
    obtain ⟨a2, rest2, heq, hpp⟩ := putCall_inv _ _ _ _ _ _ _ _ hp
    rw [Except.ok.injEq, List.cons.injEq] at heq
    obtain ⟨ha, -⟩ := heq
    subst ha
    subst hpp
    simp only [VALID_STATES, List.mem_cons, List.mem_singleton, List.not_mem_nil, or_false] at hstv
    rcases hstv with h1 | h1 | h1 <;> subst h1
    · have hg := guardState_skip "OK" states action t (pySet a.okActions) hnot
      rw [ppListOf_build_OK, stListOf_OK, hg]
      refine ⟨pySet_nodup _, List.Perm.refl _, fun x => mem_pySet, fun hnd => ?_⟩
      rw [show (pySet a.okActions, false, ([] : List String)).1 = pySet a.okActions from rfl,
        pySet_eq_self hnd]
    · have hg := guardState_skip "IN_ALARM" states action t (pySet a.alarmActions) hnot
      rw [ppListOf_build_IN_ALARM, stListOf_IN_ALARM, hg]
      refine ⟨pySet_nodup _, List.Perm.refl _, fun x => mem_pySet, fun hnd => ?_⟩
      rw [show (pySet a.alarmActions, false, ([] : List String)).1 = pySet a.alarmActions from rfl,
        pySet_eq_self hnd]
    · have hg := guardState_skip "INSUFFICIENT_DATA" states action t
        (pySet a.insufficientDataActions) hnot
      rw [ppListOf_build_INSUFFICIENT_DATA, stListOf_INSUFFICIENT_DATA, hg]
      refine ⟨pySet_nodup _, List.Perm.refl _, fun x => mem_pySet, fun hnd => ?_⟩
      rw [show (pySet a.insufficientDataActions, false, ([] : List String)).1
          = pySet a.insufficientDataActions from rfl,
        pySet_eq_self hnd]
  · intro hp
    obtain ⟨a2, rest2, heq, hpp⟩ := putCall_inv _ _ _ _ _ _ _ _ hp
    rw [Except.ok.injEq, List.cons.injEq] at heq
    obtain ⟨ha, -⟩ := heq
    subst ha
    subst hpp
    have hg := guardState_skip "INSUFFICIENT_DATA" ["OK", "IN_ALARM"] action t
      (pySet a.insufficientDataActions) (by decide)
    refine ⟨?_, ?_, ?_, ?_, rfl, rfl, rfl, rfl, rfl, rfl, rfl, rfl, rfl, rfl, rfl, rfl, rfl⟩
    · show ((guardState "INSUFFICIENT_DATA" ["OK", "IN_ALARM"] action t
        (pySet a.insufficientDataActions)).1).Nodup
      rw [hg]
      exact pySet_nodup _
    · show ((guardState "INSUFFICIENT_DATA" ["OK", "IN_ALARM"] action t
        (pySet a.insufficientDataActions)).1).Perm a.insufficientDataActions.dedup
      rw [hg]
      exact List.Perm.refl _
    · intro x
      show x ∈ (guardState "INSUFFICIENT_DATA" ["OK", "IN_ALARM"] action t
        (pySet a.insufficientDataActions)).1 ↔ x ∈ a.insufficientDataActions
      rw [hg]
      exact mem_pySet
    · intro hnd
      show ((guardState "INSUFFICIENT_DATA" ["OK", "IN_ALARM"] action t
        (pySet a.insufficientDataActions)).1).Perm a.insufficientDataActions
      rw [hg, show (pySet a.insufficientDataActions, false, ([] : List String)).1
          = pySet a.insufficientDataActions from rfl, pySet_eq_self hnd]

/-- C5 witness: concrete OK,IN_ALARM mutation leaving the
INSUFFICIENT_DATA set untouched. -/
theorem C5_witness :
    ((update_alarm_sns_topic false "alarm-1" "t" ["OK", "IN_ALARM"] "add"
        (.ok [sampleAlarm]) putOk).putCall
      = some (buildPutParams "alarm-1" sampleAlarm ["t"] ["t"] []))
    ∧ ("INSUFFICIENT_DATA" ∈ VALID_STATES
        ∧ "INSUFFICIENT_DATA" ∉ (["OK", "IN_ALARM"] : List String))
    ∧ (ppListOf "INSUFFICIENT_DATA" (buildPutParams "alarm-1" sampleAlarm ["t"] ["t"] [])).Perm
        (stListOf "INSUFFICIENT_DATA" sampleAlarm).dedup :=
  ⟨by decide, ⟨by decide, by decide⟩,
    ((C5_isolation false "alarm-1" "t" "add" putOk sampleAlarm []
        (buildPutParams "alarm-1" sampleAlarm ["t"] ["t"] [])).1
      ["OK", "IN_ALARM"] "INSUFFICIENT_DATA" (by decide) (by decide) (by decide)).2.1⟩

/-- C6: the loader deduplicates and sorts ascending by code point; the
bare-array and object shapes are processed identically; loading
`["b", "a", "a"]` yields `["a", "b"]`. -/
theorem C6_loader (l : List String) :
    load_alarm_list (.arr ["b", "a", "a"]) = .ok ["a", "b"]
    ∧ load_alarm_list (.arr l) = load_alarm_list (.obj l)
    ∧ (∀ r, load_alarm_list (.arr l) = .ok r →
        r.Nodup ∧ r.Sorted (fun a b => strLe a b = true) ∧ (∀ x, x ∈ r ↔ x ∈ l)) := by
  refine ⟨rfl, rfl, ?_⟩
  intro r h
  simp only [load_alarm_list, Except.ok.injEq] at h
  subst h
  refine ⟨((sortedStr_perm (pySet l)).nodup_iff).mpr (pySet_nodup l), sortedStr_sorted _, ?_⟩
  intro x
  rw [(sortedStr_perm (pySet l)).mem_iff, mem_pySet]

/-- C6 witness: the concrete example evaluated through the loader. -/
theorem C6_witness :
    load_alarm_list (.arr ["b", "a", "a"]) = .ok ["a", "b"]
    ∧ (["a", "b"] : List String).Nodup
    ∧ ("a" ∈ (["a", "b"] : List String) ↔ "a" ∈ (["b", "a", "a"] : List String)) :=
  ⟨rfl, ((C6_loader ["b", "a", "a"]).2.2 ["a", "b"] rfl).1,
    ((C6_loader ["b", "a", "a"]).2.2 ["a", "b"] rfl).2.2 "a"⟩

/-- C7: the fetcher partitions the names into consecutive
order-preserving batches of at most 100, issuing ceil(N/100) queries
(for 250 names: three batches of 100, 100 and 50), and accumulates per
batch exactly the requested names missing from that batch's response. -/
theorem C7_batching (dir : String → Option Alarm) (l : List String) :
    (batches l).length = (l.length + 100 - 1) / 100
    ∧ (batches l).flatten = l
    ∧ (∀ b ∈ batches l, b.length ≤ 100)
    ∧ (l.length = 250 → (batches l).map List.length = [100, 100, 50])
    ∧ (get_alarm_details dir l).2
        = ((batches l).map (fun b =>
            b.filter (fun n => n ∉ (describeBatch dir b).map (fun a => a.alarmName)))).flatten :=
  ⟨batches_length l, batches_join l, fun b hb => batches_size_le l b hb,
    batches_map_length_250 l, get_alarm_details_not_found dir l⟩

/-- C7 witness: 250 names produce batches of sizes 100, 100, 50. -/
theorem C7_witness :
    (List.replicate 250 "a").length = 250
    ∧ (batches (List.replicate 250 "a")).map List.length = [100, 100, 50] :=
  ⟨List.length_replicate 250 "a",
    (C7_batching (fun _ => none) (List.replicate 250 "a")).2.2.2.1 (List.length_replicate 250 "a")⟩

/-- C8: applying Add twice for the same topic and single state is
idempotent: after a successful first Add, the second Add reports the
AlreadyPresent no-op for that state, attempts no persist call, and
leaves the stored action set unchanged. -/
theorem C8_idempotent (n1 n2 t st : String) (dry2 : Bool) (a a2 : Alarm)
    (rest1 rest2 : List Alarm) (putRes1 putRes2 : PutParams → Except String Unit)
    (hst : st ∈ VALID_STATES)
    (h1 : (update_alarm_sns_topic false n1 t [st] "add"
        (.ok (a :: rest1)) putRes1).result.success = true)
    (ha2 : stListOf st a2 = storedListAfter st a
        (update_alarm_sns_topic false n1 t [st] "add" (.ok (a :: rest1)) putRes1)) :
    update_alarm_sns_topic dry2 n2 t [st] "add" (.ok (a2 :: rest2)) putRes2
      = ⟨⟨true, [st ++ ": Tópico já presente (nenhuma ação)"], none⟩, none⟩
    ∧ storedListAfter st a2
        (update_alarm_sns_topic dry2 n2 t [st] "add" (.ok (a2 :: rest2)) putRes2)
      = stListOf st a2 := by
  by_cases ht : t ∈ stListOf st a
  · rw [update_add_present st n1 t false a rest1 putRes1 hst ht] at ha2
    simp only [storedListAfter, if_true] at ha2
    have ht2 : t ∈ stListOf st a2 := ha2 ▸ ht
    have he := update_add_present st n2 t dry2 a2 rest2 putRes2 hst ht2
    refine ⟨he, ?_⟩
    rw [he]
    simp [storedListAfter]
  · obtain ⟨p1, hp1, _, heq1⟩ := update_add_absent st n1 t a rest1 putRes1 hst ht
    cases hq1 : putRes1 p1 with
    | error e =>
      rw [heq1, hq1] at h1
      simp at h1
    | ok u =>
      rw [heq1, hq1] at ha2
      simp only [storedListAfter, if_true] at ha2
      rw [hp1] at ha2
      have ht2 : t ∈ stListOf st a2 := by rw [ha2]; simp
      have he := update_add_present st n2 t dry2 a2 rest2 putRes2 hst ht2
      refine ⟨he, ?_⟩
      rw [he]
      simp [storedListAfter]

/-- C8 witness: a second Add of an already present topic is a no-op. -/
theorem C8_witness :
    ("OK" ∈ VALID_STATES
      ∧ (update_alarm_sns_topic false "alarm-1" "x" ["OK"] "add"
          (.ok [alarmOkX]) putOk).result.success = true
      ∧ stListOf "OK" alarmOkX = storedListAfter "OK" alarmOkX
          (update_alarm_sns_topic false "alarm-1" "x" ["OK"] "add" (.ok [alarmOkX]) putOk))
    ∧ update_alarm_sns_topic false "alarm-1" "x" ["OK"] "add" (.ok [alarmOkX]) putOk
        = ⟨⟨true, ["OK" ++ ": Tópico já presente (nenhuma ação)"], none⟩, none⟩ :=
  ⟨⟨by decide, by decide, by decide⟩,
    (C8_idempotent "alarm-1" "alarm-1" "x" "OK" false alarmOkX alarmOkX [] [] putOk putOk
      (by decide) (by decide) (by decide)).1⟩

/-- C9: a raised re-fetch error becomes a failed outcome carrying the
message; a raised persist error becomes a failed outcome carrying the
message; and a live run always reaches the final summary with one
processed count per found alarm, whatever the per-alarm oracles do. -/
theorem C9_error_isolation :
    (∀ (dry : Bool) (n t : String) (states : List String) (action e : String)
        (putRes : PutParams → Except String Unit),
      update_alarm_sns_topic dry n t states action (.error e) putRes
        = ⟨⟨false, [], some ("Erro ao atualizar alarme: " ++ e)⟩, none⟩)
    ∧ (∀ (dry : Bool) (n t : String) (states : List String) (action : String)
        (fetch : Except String (List Alarm)) (putRes : PutParams → Except String Unit)
        (p : PutParams) (e : String),
      (update_alarm_sns_topic dry n t states action fetch putRes).putCall = some p →
      putRes p = .error e →
      (update_alarm_sns_topic dry n t states action fetch putRes).result.success = false
      ∧ (update_alarm_sns_topic dry n t states action fetch putRes).result.error
          = some ("Erro ao atualizar alarme: " ++ e))
    ∧ (∀ (doc : AlarmsJson) (topic : String) (states : List String) (action : String)
        (dir : String → Option Alarm) (refetch : String → Except String (List Alarm))
        (putRes : PutParams → Except String Unit) (r : Stats × List PutParams),
      process_alarms false doc topic states action dir refetch putRes = .ok r →
      r.1.processed = r.1.found) :=
  ⟨fun _ _ _ _ _ _ _ => rfl,
    fun dry n t states action fetch putRes p e hp he =>
      update_persist_error dry n t states action fetch putRes p e hp he,
    fun doc topic states action dir refetch putRes r h =>
      process_reaches_summary doc topic states action dir refetch putRes r h⟩

/-- C9 witness: a failing persist is converted to a failed outcome, and
a run whose every re-fetch fails still processes every found alarm. -/
theorem C9_witness :
    (((update_alarm_sns_topic false "alarm-1" "t" ["OK"] "add"
        (.ok [sampleAlarm]) putFail).putCall
          = some (buildPutParams "alarm-1" sampleAlarm ["t"] [] []))
      ∧ putFail (buildPutParams "alarm-1" sampleAlarm ["t"] [] []) = .error "AccessDenied")
    ∧ ((update_alarm_sns_topic false "alarm-1" "t" ["OK"] "add"
        (.ok [sampleAlarm]) putFail).result.success = false
      ∧ (update_alarm_sns_topic false "alarm-1" "t" ["OK"] "add"
          (.ok [sampleAlarm]) putFail).result.error
        = some ("Erro ao atualizar alarme: " ++ "AccessDenied"))
    ∧ (process_alarms false (.arr ["alarm-1", "alarm-2"]) "t" ["OK"] "add"
        dirTwo refetchErr putOk = .ok (⟨2, 2, 0, 2, 0, 2, 0⟩, []))
    ∧ ((⟨2, 2, 0, 2, 0, 2, 0⟩ : Stats), ([] : List PutParams)).1.processed
        = ((⟨2, 2, 0, 2, 0, 2, 0⟩ : Stats), ([] : List PutParams)).1.found :=
  ⟨⟨by decide, rfl⟩,
    C9_error_isolation.2.1 false "alarm-1" "t" ["OK"] "add" (.ok [sampleAlarm]) putFail
      (buildPutParams "alarm-1" sampleAlarm ["t"] [] []) "AccessDenied" (by decide) rfl,
    rfl,
    C9_error_isolation.2.2 (.arr ["alarm-1", "alarm-2"]) "t" ["OK"] "add" dirTwo refetchErr
      putOk (⟨2, 2, 0, 2, 0, 2, 0⟩, []) rfl⟩

/-- C10: every outcome of the per-alarm mutator satisfies the invariant
that the success flag is set exactly when the error field is empty. -/
theorem C10_success_iff_no_error (dry : Bool) (n t : String) (states : List String)
    (action : String) (fetch : Except String (List Alarm))
    (putRes : PutParams → Except String Unit) :
    ((update_alarm_sns_topic dry n t states action fetch putRes).result.success = true
      ↔ (update_alarm_sns_topic dry n t states action fetch putRes).result.error = none) := by
  unfold update_alarm_sns_topic
  cases fetch with
  | error e => simp
  | ok ms =>
    cases ms with
    | nil => simp
    | cons a rest =>
      dsimp only []
      split
      · simp
      · split
        · split <;> simp
        · simp
